import Mathlib

/-!
Shallow embedding of the user-registration CRUD service
(`server.js`, embedded in `WALKTHROUGH.md`) and its UI form controller
(`public/app.js`).

The store is the SQLite `users` table: a list of rows in rowid order plus
the AUTOINCREMENT counter.  JSON numbers are modelled as `Rat` (the age
field carries arbitrary numeric values, not just integers), timestamps as
`Nat`.  Each HTTP handler becomes a pure function from store (and request
data) to a response, paired with the successor store for mutating calls.
-/

/-- A row of the `users` table. -/
structure User where
  id : Nat
  username : String
  email : String
  age : Rat
  created_at : Nat
  deriving Repr, DecidableEq

/-- The persistent store: live rows in rowid order plus the
AUTOINCREMENT counter (`nextId` is the id the next successful insert
receives; SQLite starts it at 1 and never decreases it). -/
structure Store where
  rows : List User
  nextId : Nat
  deriving Repr, DecidableEq

/-- The store of a freshly initialised database (`initDatabase` on a
missing `users.db`). -/
def initStore : Store := { rows := [], nextId := 1 }

/-- JSON response shape used by every handler: HTTP status, `success`
flag, and the optional `message`, `user`, `users` payload fields. -/
structure Resp where
  status : Nat
  success : Bool
  message : Option String
  user : Option User
  users : Option (List User)
  deriving Repr, DecidableEq

/-- Body of `POST /api/users`: each field may be absent (`none`). -/
structure ReqBody where
  username : Option String
  email : Option String
  age : Option Rat
  deriving Repr, DecidableEq

/-- JavaScript truthiness of an optional string
(`undefined`, `null` and `""` are falsy). -/
def truthyStr : Option String → Bool
  | none => false
  | some s => s ≠ ""

/-- JavaScript truthiness of an optional number
(`undefined`, `null` and `0` are falsy). -/
def truthyNum : Option Rat → Bool
  | none => false
  | some q => q ≠ 0

/-- The comparator of `ORDER BY created_at DESC`: `a` may come before `b`
when `a` is at least as new as `b`. -/
def newestFirst (a b : User) : Prop := b.created_at ≤ a.created_at

instance : DecidableRel newestFirst := fun a b =>
  inferInstanceAs (Decidable (b.created_at ≤ a.created_at))

instance : IsTotal User newestFirst :=
  ⟨fun a b => le_total b.created_at a.created_at⟩

instance : IsTrans User newestFirst :=
  ⟨fun _ _ _ hab hbc => le_trans hbc hab⟩

/-- `GET /api/users`: `SELECT * FROM users ORDER BY created_at DESC`,
then a 200 with the full list (empty list when there are no rows). -/
def getAllUsers (s : Store) : Resp :=
  let sorted := s.rows.insertionSort newestFirst
  { status := 200, success := true, message := none, user := none,
    users := some sorted }

/-- `GET /api/users/:id`: first row whose id matches, else a 404
`User not found`. -/
def getUserById (s : Store) (i : Nat) : Resp :=
  match s.rows.find? (fun r => r.id == i) with
  | some u =>
      { status := 200, success := true, message := none, user := some u,
        users := none }
  | none =>
      { status := 404, success := false, message := some "User not found",
        user := none, users := none }

/-- `GET /api/users/username/:username`: first row whose username
matches, else a 404 `User not found`. -/
def getUserByUsername (s : Store) (name : String) : Resp :=
  match s.rows.find? (fun r => r.username == name) with
  | some u =>
      { status := 200, success := true, message := none, user := some u,
        users := none }
  | none =>
      { status := 404, success := false, message := some "User not found",
        user := none, users := none }

/-- `POST /api/users`.  Mirrors the handler line by line:
`!username || !email || !age` (JS falsiness, so `""` and `0` count as
missing) yields a 400 `All fields are required`; then `age < 1 || age > 150`
yields a 400 `Age must be between 1 and 150`; then the `INSERT` runs,
raising the UNIQUE constraint (caught as a 409) when a live row already
holds the username or email; finally the created row is re-read with
`SELECT * FROM users WHERE username = ?` and returned in a 201.
`now` is `CURRENT_TIMESTAMP` at insert time.  Returns the response and
the store after the call. -/
def createUser (s : Store) (b : ReqBody) (now : Nat) : Resp × Store :=
  if truthyStr b.username = false ∨ truthyStr b.email = false ∨
      truthyNum b.age = false then
    ({ status := 400, success := false,
       message := some "All fields are required", user := none,
       users := none }, s)
  else
    match b.username, b.email, b.age with
    | some u, some e, some a =>
      if a < 1 ∨ a > 150 then
        ({ status := 400, success := false,
           message := some "Age must be between 1 and 150", user := none,
           users := none }, s)
      else if s.rows.any (fun r => r.username == u || r.email == e) then
        ({ status := 409, success := false,
           message := some "Username or email already exists", user := none,
           users := none }, s)
      else
        let newRow : User :=
          { id := s.nextId, username := u, email := e, age := a,
            created_at := now }
        let s' : Store := { rows := s.rows ++ [newRow], nextId := s.nextId + 1 }
        match s'.rows.find? (fun r => r.username == u) with
        | some created =>
            ({ status := 201, success := true,
               message := some "User registered successfully",
               user := some created, users := none }, s')
        | none =>
            ({ status := 500, success := false, message := none,
               user := none, users := none }, s')
    | _, _, _ =>
        ({ status := 400, success := false,
           message := some "All fields are required", user := none,
           users := none }, s)

/-- `DELETE /api/users/:id`: `DELETE FROM users WHERE id = ?`, always a
200 acknowledgment. -/
def deleteUser (s : Store) (i : Nat) : Resp × Store :=
  ({ status := 200, success := true,
     message := some "User deleted successfully", user := none,
     users := none },
   { rows := s.rows.filter (fun r => !(r.id == i)), nextId := s.nextId })

/-- `DELETE /api/users`: `DELETE FROM users`, always a 200. -/
def deleteAllUsers (s : Store) : Resp × Store :=
  ({ status := 200, success := true,
     message := some "All users deleted successfully", user := none,
     users := none },
   { rows := [], nextId := s.nextId })

/-! ### UI form controller (`public/app.js`) -/

/-- The four DOM nodes the success branch of the submit handler writes:
`#userId`, `#displayUsername`, `#displayEmail`, `#displayAge`
(`textContent :=` the respective `data.user` field, numbers coerced to
strings). -/
structure RenderedView where
  userId : String
  displayUsername : String
  displayEmail : String
  displayAge : String
  deriving Repr, DecidableEq

/-- Every string the success view displays, in DOM order. -/
def renderedValues (v : RenderedView) : List String :=
  [v.userId, v.displayUsername, v.displayEmail, v.displayAge]

/-- Observable outcome of one form submission: either the `#userInfo`
panel with its four filled fields, or the `.message.error` div with its
text. -/
inductive UIState where
  | userInfo (v : RenderedView)
  | errorMsg (m : String)
  deriving Repr, DecidableEq

/-- The submit handler after `await response.json()`: on
`data.success` it fills the four display fields from `data.user`
(accessing `data.user` when it is absent throws, landing in the `catch`
branch, which shows the generic connectivity message); otherwise it
shows `data.message` (JS renders a missing message as `undefined`). -/
def handleResponse (resp : Resp) : UIState :=
  if resp.success then
    match resp.user with
    | some u =>
        .userInfo
          { userId := toString u.id, displayUsername := u.username,
            displayEmail := u.email, displayAge := toString u.age }
    | none =>
        .errorMsg "Failed to register user. Please ensure the server is running."
  else
    .errorMsg (resp.message.getD "undefined")

/-! ### Operation sequences over one store lifetime -/

/-- A mutating API call: `POST /api/users` (with the timestamp the store
assigns) or `DELETE /api/users/:id`. -/
inductive Op where
  | create (b : ReqBody) (now : Nat)
  | delete (i : Nat)
  deriving Repr, DecidableEq

/-- The store after one mutating call. -/
def applyOp (s : Store) : Op → Store
  | .create b now => (createUser s b now).2
  | .delete i => (deleteUser s i).2

/-- The store after a sequence of mutating calls. -/
def run (s : Store) : List Op → Store
  | [] => s
  | op :: ops => run (applyOp s op) ops

/-- The id a call hands out: the created user's id when the call is a
successful create, nothing otherwise. -/
def createdId (s : Store) : Op → Option Nat
  | .create b now =>
      match (createUser s b now).1.user with
      | some u => some u.id
      | none => none
  | .delete _ => none

/-- All ids assigned by successful creates along a sequence of calls, in
order of assignment. -/
def assignedIds (s : Store) : List Op → List Nat
  | [] => []
  | op :: ops => (createdId s op).toList ++ assignedIds (applyOp s op) ops

/-- Store well-formedness: every live row's id is below the
AUTOINCREMENT counter.  Holds for `initStore` and is preserved by every
handler. -/
def StoreInv (s : Store) : Prop := ∀ u ∈ s.rows, u.id < s.nextId

/-- The row a successful `INSERT INTO users` adds: next counter value,
the submitted fields, `CURRENT_TIMESTAMP`. -/
def mkRow (s : Store) (u e : String) (a : Rat) (now : Nat) : User :=
  { id := s.nextId, username := u, email := e, age := a, created_at := now }

/-- The create handler's validation verdict, exactly its two guards:
true iff `!username || !email || !age` fires (a field absent or falsy)
or `age < 1 || age > 150` fires. -/
def failsValidation (b : ReqBody) : Bool :=
  !(truthyStr b.username) || !(truthyStr b.email) || !(truthyNum b.age) ||
    (match b.age with
     | some a => decide (a < 1) || decide (a > 150)
     | none => true)

/-- A fixture row used to instantiate theorems with hypotheses. -/
def aliceRow : User :=
  { id := 1, username := "alice", email := "alice@example.com", age := 25,
    created_at := 5 }

/-- A fixture store holding exactly `aliceRow`. -/
def oneUserStore : Store := { rows := [aliceRow], nextId := 2 }

/-! ### Helper lemmas -/

theorem createUser_success (s : Store) (u e : String) (a : Rat) (now : Nat)
    (hu : u ≠ "") (he : e ≠ "") (ha1 : 1 ≤ a) (ha2 : a ≤ 150)
    (hfresh : ∀ r ∈ s.rows, r.username ≠ u ∧ r.email ≠ e) :
    createUser s ⟨some u, some e, some a⟩ now =
      ({ status := 201, success := true,
         message := some "User registered successfully",
         user := some (mkRow s u e a now), users := none },
       { rows := s.rows ++ [mkRow s u e a now], nextId := s.nextId + 1 }) := by
  have ha0 : a ≠ 0 := by
    intro h
    rw [h] at ha1
    norm_num at ha1
  have hval : ¬(truthyStr (some u) = false ∨ truthyStr (some e) = false ∨
      truthyNum (some a) = false) := by
    simp [truthyStr, truthyNum, hu, he, ha0]
  have hage : ¬(a < 1 ∨ a > 150) := by
    push_neg
    exact ⟨ha1, ha2⟩
  have hany : s.rows.any (fun r => r.username == u || r.email == e) = false := by
    rw [List.any_eq_false]
    intro r hr
    simp [(hfresh r hr).1, (hfresh r hr).2]
  have hfind : (s.rows ++ [mkRow s u e a now]).find?
      (fun r => r.username == u) = some (mkRow s u e a now) := by
    rw [List.find?_append]
    have h1 : s.rows.find? (fun r => r.username == u) = none := by
      rw [List.find?_eq_none]
      intro r hr
      simp [(hfresh r hr).1]
    rw [h1]
    simp [mkRow]
  simp only [createUser]
  rw [if_neg hval]
  simp only [mkRow] at hfind
  simp [hage, hany, hfind, mkRow]

theorem createUser_conflict (s : Store) (u e : String) (a : Rat) (now : Nat)
    (hu : u ≠ "") (he : e ≠ "") (ha1 : 1 ≤ a) (ha2 : a ≤ 150)
    (hdup : ∃ r ∈ s.rows, r.username = u ∨ r.email = e) :
    createUser s ⟨some u, some e, some a⟩ now =
      ({ status := 409, success := false,
         message := some "Username or email already exists", user := none,
         users := none }, s) := by
  have ha0 : a ≠ 0 := by
    intro h
    rw [h] at ha1
    norm_num at ha1
  have hval : ¬(truthyStr (some u) = false ∨ truthyStr (some e) = false ∨
      truthyNum (some a) = false) := by
    simp [truthyStr, truthyNum, hu, he, ha0]
  have hage : ¬(a < 1 ∨ a > 150) := by
    push_neg
    exact ⟨ha1, ha2⟩
  have hany : s.rows.any (fun r => r.username == u || r.email == e) = true := by
    rw [List.any_eq_true]
    obtain ⟨r, hr, hre⟩ := hdup
    refine ⟨r, hr, ?_⟩
    rcases hre with h | h <;> simp [h]
  simp only [createUser]
  rw [if_neg hval]
  simp [hage, hany]

theorem createUser_invalid (s : Store) (b : ReqBody) (now : Nat)
    (h : failsValidation b = true) :
    (createUser s b now).1.status = 400 ∧ (createUser s b now).2 = s := by
  by_cases hval : truthyStr b.username = false ∨ truthyStr b.email = false ∨
      truthyNum b.age = false
  · simp only [createUser]
    rw [if_pos hval]
    exact ⟨rfl, rfl⟩
  · push_neg at hval
    obtain ⟨h1, h2, h3⟩ := hval
    rw [Ne, Bool.not_eq_false] at h1 h2 h3
    obtain ⟨bu, be, ba⟩ := b
    cases bu with
    | none => simp [truthyStr] at h1
    | some u =>
      cases be with
      | none => simp [truthyStr] at h2
      | some e =>
        cases ba with
        | none => simp [truthyNum] at h3
        | some a =>
          have hu : u ≠ "" := by simpa [truthyStr] using h1
          have he : e ≠ "" := by simpa [truthyStr] using h2
          have ha0 : a ≠ 0 := by simpa [truthyNum] using h3
          have hage : a < 1 ∨ a > 150 := by
            simpa [failsValidation, truthyStr, truthyNum, hu, he, ha0] using h
          have hcond : ¬(truthyStr (some u) = false ∨
              truthyStr (some e) = false ∨ truthyNum (some a) = false) := by
            simp [truthyStr, truthyNum, hu, he, ha0]
          simp only [createUser]
          rw [if_neg hcond]
          simp [hage]

theorem createUser_cases (s : Store) (b : ReqBody) (now : Nat) :
    ((createUser s b now).2 = s ∧ (createUser s b now).1.user = none) ∨
    (∃ u e a, b = ⟨some u, some e, some a⟩ ∧
      (createUser s b now).1.user = some (mkRow s u e a now) ∧
      (createUser s b now).2 =
        { rows := s.rows ++ [mkRow s u e a now], nextId := s.nextId + 1 }) := by
  by_cases hval : truthyStr b.username = false ∨ truthyStr b.email = false ∨
      truthyNum b.age = false
  · left
    simp only [createUser]
    rw [if_pos hval]
    exact ⟨rfl, rfl⟩
  · push_neg at hval
    obtain ⟨h1, h2, h3⟩ := hval
    rw [Ne, Bool.not_eq_false] at h1 h2 h3
    obtain ⟨bu, be, ba⟩ := b
    cases bu with
    | none => simp [truthyStr] at h1
    | some u =>
      cases be with
      | none => simp [truthyStr] at h2
      | some e =>
        cases ba with
        | none => simp [truthyNum] at h3
        | some a =>
          have hu : u ≠ "" := by simpa [truthyStr] using h1
          have he : e ≠ "" := by simpa [truthyStr] using h2
          have ha0 : a ≠ 0 := by simpa [truthyNum] using h3
          have hcond : ¬(truthyStr (some u) = false ∨
              truthyStr (some e) = false ∨ truthyNum (some a) = false) := by
            simp [truthyStr, truthyNum, hu, he, ha0]
          by_cases hage : a < 1 ∨ a > 150
          · left
            simp only [createUser]
            rw [if_neg hcond]
            simp [hage]
          · by_cases hany :
                s.rows.any (fun r => r.username == u || r.email == e) = true
            · left
              simp only [createUser]
              rw [if_neg hcond]
              simp [hage, hany]
            · right
              push_neg at hage
              obtain ⟨ha1, ha2⟩ := hage
              have hfresh : ∀ r ∈ s.rows, r.username ≠ u ∧ r.email ≠ e := by
                rw [Bool.not_eq_true, List.any_eq_false] at hany
                intro r hr
                have := hany r hr
                simpa using this
              refine ⟨u, e, a, rfl, ?_, ?_⟩ <;>
                rw [createUser_success s u e a now hu he ha1 ha2 hfresh]

theorem find?_id_append (s : Store) (row : User) (hInv : StoreInv s)
    (hid : s.nextId ≤ row.id) :
    (s.rows ++ [row]).find? (fun r => r.id == row.id) = some row := by
  rw [List.find?_append]
  have h1 : s.rows.find? (fun r => r.id == row.id) = none := by
    rw [List.find?_eq_none]
    intro r hr
    have := hInv r hr
    simp only [beq_iff_eq]
    omega
  rw [h1]
  simp

theorem applyOp_spec (s : Store) (op : Op) :
    (createdId s op = none ∧ (applyOp s op).nextId = s.nextId ∧
       ∀ u ∈ (applyOp s op).rows, u ∈ s.rows) ∨
    (createdId s op = some s.nextId ∧ (applyOp s op).nextId = s.nextId + 1 ∧
       ∃ row, row.id = s.nextId ∧ (applyOp s op).rows = s.rows ++ [row]) := by
  cases op with
  | delete i =>
    left
    refine ⟨rfl, rfl, ?_⟩
    intro u hu
    simp only [applyOp, deleteUser] at hu
    exact (List.mem_filter.mp hu).1
  | create b now =>
    rcases createUser_cases s b now with ⟨h2, h1⟩ | ⟨u, e, a, hb, h1, h2⟩
    · left
      refine ⟨?_, ?_, ?_⟩
      · simp [createdId, h1]
      · simp [applyOp, h2]
      · intro x hx
        rw [applyOp] at hx
        rw [h2] at hx
        exact hx
    · right
      refine ⟨?_, ?_, mkRow s u e a now, rfl, ?_⟩
      · simp [createdId, h1, mkRow]
      · simp [applyOp, h2]
      · simp [applyOp, h2]

theorem assignedIds_spec (s : Store) (ops : List Op) (hInv : StoreInv s) :
    (∀ i ∈ assignedIds s ops, s.nextId ≤ i) ∧
    List.Chain' (· < ·) (assignedIds s ops) ∧
    (∀ u ∈ (run s ops).rows, u.id ∈ assignedIds s ops ∨ u ∈ s.rows) := by
  induction ops generalizing s with
  | nil =>
    refine ⟨by simp [assignedIds], by simp [assignedIds], ?_⟩
    intro u hu
    exact Or.inr hu
  | cons op ops ih =>
    rcases applyOp_spec s op with ⟨hc, hn, hsub⟩ | ⟨hc, hn, row, hrow, hrows⟩
    · have hInv' : StoreInv (applyOp s op) := by
        intro u hu
        rw [hn]
        exact hInv u (hsub u hu)
      obtain ⟨ihl, ihc, ihm⟩ := ih (applyOp s op) hInv'
      have heq : assignedIds s (op :: ops) = assignedIds (applyOp s op) ops := by
        simp [assignedIds, hc]
      refine ⟨?_, ?_, ?_⟩
      · intro i hi
        rw [heq] at hi
        have := ihl i hi
        omega
      · rw [heq]
        exact ihc
      · intro u hu
        rw [run] at hu
        rw [heq]
        rcases ihm u hu with h | h
        · exact Or.inl h
        · exact Or.inr (hsub u h)
    · have hInv' : StoreInv (applyOp s op) := by
        intro u hu
        rw [hrows] at hu
        rw [hn]
        rcases List.mem_append.mp hu with h | h
        · exact Nat.lt_succ_of_lt (hInv u h)
        · rw [List.mem_singleton.mp h, hrow]
          omega
      obtain ⟨ihl, ihc, ihm⟩ := ih (applyOp s op) hInv'
      rw [hn] at ihl
      have heq : assignedIds s (op :: ops) =
          s.nextId :: assignedIds (applyOp s op) ops := by
        simp [assignedIds, hc]
      refine ⟨?_, ?_, ?_⟩
      · intro i hi
        rw [heq] at hi
        rcases List.mem_cons.mp hi with h | h
        · omega
        · have := ihl i h
          omega
      · rw [heq, List.chain'_cons']
        refine ⟨?_, ihc⟩
        intro y hy
        have hmem : y ∈ assignedIds (applyOp s op) ops :=
          List.mem_of_mem_head? hy
        have := ihl y hmem
        omega
      · intro u hu
        rw [run] at hu
        rw [heq]
        rcases ihm u hu with h | h
        · exact Or.inl (List.mem_cons_of_mem _ h)
        · rw [hrows] at h
          rcases List.mem_append.mp h with h | h
          · exact Or.inr h
          · rw [List.mem_singleton.mp h]
            rw [hrow]
            exact Or.inl (List.mem_cons_self _ _)

/-! ### Claim theorems -/

/-- C1: for every valid `(username, email, age)` (age in `[1,150]`,
username and email not among the live records), create succeeds with a
201 carrying a store-assigned id (the counter value) and `created_at`
(the insert-time timestamp), and get-by-id on that id returns the same
user with username, email and age unchanged. -/
theorem c1_create_get_roundtrip (s : Store) (u e : String) (a : Rat)
    (now : Nat) (hInv : StoreInv s) (hu : u ≠ "") (he : e ≠ "")
    (ha1 : 1 ≤ a) (ha2 : a ≤ 150)
    (hfresh : ∀ r ∈ s.rows, r.username ≠ u ∧ r.email ≠ e) :
    (createUser s ⟨some u, some e, some a⟩ now).1.status = 201 ∧
    ∃ usr, (createUser s ⟨some u, some e, some a⟩ now).1.user = some usr ∧
      usr.username = u ∧ usr.email = e ∧ usr.age = a ∧
      usr.id = s.nextId ∧ usr.created_at = now ∧
      (getUserById (createUser s ⟨some u, some e, some a⟩ now).2
          usr.id).status = 200 ∧
      (getUserById (createUser s ⟨some u, some e, some a⟩ now).2
          usr.id).user = some usr := by
  have hfind := find?_id_append s (mkRow s u e a now) hInv (by simp [mkRow])
  rw [createUser_success s u e a now hu he ha1 ha2 hfresh]
  refine ⟨rfl, mkRow s u e a now, rfl, rfl, rfl, rfl, rfl, rfl, ?_, ?_⟩ <;>
    simp [getUserById, hfind]

/-- C1 witness at a concrete input. -/
theorem c1_witness :
    (createUser initStore ⟨some "alice", some "alice@example.com", some 25⟩
        7).1.status = 201 :=
  (c1_create_get_roundtrip initStore "alice" "alice@example.com" 25 7
    (by simp [StoreInv, initStore]) (by decide) (by decide) (by norm_num)
    (by norm_num) (by simp [initStore])).1

/-- C2: creating a user whose username equals that of a live record
fails with a 409 `Username or email already exists` and leaves the
store — in particular the original record and its email — untouched. -/
theorem c2_conflict_atomic (s : Store) (r0 : User) (e : String) (a : Rat)
    (now : Nat) (hr0 : r0 ∈ s.rows) (hu : r0.username ≠ "") (he : e ≠ "")
    (ha1 : 1 ≤ a) (ha2 : a ≤ 150) :
    (createUser s ⟨some r0.username, some e, some a⟩ now).1.status = 409 ∧
    (createUser s ⟨some r0.username, some e, some a⟩ now).1.success = false ∧
    (createUser s ⟨some r0.username, some e, some a⟩ now).1.message =
      some "Username or email already exists" ∧
    (createUser s ⟨some r0.username, some e, some a⟩ now).2 = s ∧
    getUserByUsername (createUser s ⟨some r0.username, some e, some a⟩
        now).2 r0.username = getUserByUsername s r0.username := by
  rw [createUser_conflict s r0.username e a now hu he ha1 ha2
    ⟨r0, hr0, Or.inl rfl⟩]
  exact ⟨rfl, rfl, rfl, rfl, rfl⟩

/-- C2 witness at a concrete input: a second create with `alice`'s
username and a different email conflicts and changes nothing. -/
theorem c2_witness :
    (createUser oneUserStore
        ⟨some aliceRow.username, some "other@example.com", some 30⟩
        9).2 = oneUserStore :=
  (c2_conflict_atomic oneUserStore aliceRow "other@example.com" 30 9
    (by simp [oneUserStore]) (by decide) (by decide) (by norm_num)
    (by norm_num)).2.2.2.1

/-- C3: whenever the create handler's validation fails (a field absent
or falsy, or the age out of `[1,150]`), the handler answers 400 and the
store is untouched — so an input that is both invalid and a duplicate
gets 400, never 409. -/
theorem c3_validation_before_store (s : Store) (b : ReqBody) (now : Nat)
    (h : failsValidation b = true) :
    (createUser s b now).1.status = 400 ∧ (createUser s b now).2 = s ∧
    (createUser s b now).1.status ≠ 409 := by
  obtain ⟨h1, h2⟩ := createUser_invalid s b now h
  exact ⟨h1, h2, by omega⟩

/-- C3 witness at a concrete input that is simultaneously a duplicate
username and an out-of-range age: the result is the 400, not the 409. -/
theorem c3_witness :
    (createUser oneUserStore
        ⟨some "alice", some "alice@example.com", some 151⟩ 9).1.status =
      400 :=
  (c3_validation_before_store oneUserStore
    ⟨some "alice", some "alice@example.com", some 151⟩ 9 (by decide)).1

/-- C4: with fresh, non-empty username and email, create succeeds at the
age boundaries 1 and 150 and fails with a 400 at 0 and 151, leaving no
record behind (a get by that username on the resulting store is a 404). -/
theorem c4_age_boundaries (s : Store) (u e : String) (now : Nat)
    (hu : u ≠ "") (he : e ≠ "")
    (hfresh : ∀ r ∈ s.rows, r.username ≠ u ∧ r.email ≠ e) :
    (createUser s ⟨some u, some e, some 1⟩ now).1.status = 201 ∧
    (createUser s ⟨some u, some e, some 150⟩ now).1.status = 201 ∧
    ((createUser s ⟨some u, some e, some 0⟩ now).1.status = 400 ∧
      (getUserByUsername (createUser s ⟨some u, some e, some 0⟩ now).2
          u).status = 404) ∧
    ((createUser s ⟨some u, some e, some 151⟩ now).1.status = 400 ∧
      (getUserByUsername (createUser s ⟨some u, some e, some 151⟩ now).2
          u).status = 404) := by
  have hnone : s.rows.find? (fun r => r.username == u) = none := by
    rw [List.find?_eq_none]
    intro r hr
    simp [(hfresh r hr).1]
  have habsent : (getUserByUsername s u).status = 404 := by
    simp [getUserByUsername, hnone]
  have h0 : failsValidation ⟨some u, some e, some 0⟩ = true := by
    simp [failsValidation, truthyNum]
  have h151 : failsValidation ⟨some u, some e, some 151⟩ = true := by
    simp [failsValidation, truthyStr, truthyNum, hu, he]
    norm_num
  refine ⟨?_, ?_, ⟨?_, ?_⟩, ⟨?_, ?_⟩⟩
  · rw [createUser_success s u e 1 now hu he (by norm_num) (by norm_num)
      hfresh]
  · rw [createUser_success s u e 150 now hu he (by norm_num) (by norm_num)
      hfresh]
  · exact (createUser_invalid s ⟨some u, some e, some 0⟩ now h0).1
  · rw [(createUser_invalid s ⟨some u, some e, some 0⟩ now h0).2]
    exact habsent
  · exact (createUser_invalid s ⟨some u, some e, some 151⟩ now h151).1
  · rw [(createUser_invalid s ⟨some u, some e, some 151⟩ now h151).2]
    exact habsent

/-- C4 witness at a concrete input. -/
theorem c4_witness :
    (createUser initStore ⟨some "bob", some "bob@example.com", some 1⟩
        3).1.status = 201 :=
  (c4_age_boundaries initStore "bob" "bob@example.com" 3 (by decide)
    (by decide) (by simp [initStore])).1

/-- C5 counterexample: with username, email and age all present and the
age value 0 — which is out of the range `[1,150]` — the handler answers
with the missing-field message, not the age-out-of-range message,
because JavaScript treats the present value `0` as falsy. -/
theorem c5_counterexample :
    (createUser initStore
        ⟨some "alice", some "alice@example.com", some 0⟩ 0).1.message =
      some "All fields are required" ∧
    (createUser initStore
        ⟨some "alice", some "alice@example.com", some 0⟩ 0).1.message ≠
      some "Age must be between 1 and 150" ∧
    ((0 : Rat) < 1 ∨ (0 : Rat) > 150) := by
  refine ⟨by decide, by decide, Or.inl (by norm_num)⟩

/-- C5 (amended): for requests with all three fields present, a nonzero
out-of-range age is answered with the age-out-of-range message
`Age must be between 1 and 150` (and a 400), while the missing-field
message `All fields are required` is returned exactly for a field that
is absent or falsy (empty string, or the number 0 — so a present age of
0 is misclassified as missing). -/
theorem c5_failure_classification (s : Store) (u e : String) (a : Rat)
    (now : Nat) (hu : u ≠ "") (he : e ≠ "") (ha0 : a ≠ 0)
    (hage : a < 1 ∨ a > 150) :
    (createUser s ⟨some u, some e, some a⟩ now).1.message =
      some "Age must be between 1 and 150" ∧
    (createUser s ⟨some u, some e, some a⟩ now).1.status = 400 ∧
    ∀ b : ReqBody,
      (createUser s b now).1.message = some "All fields are required" →
      (truthyStr b.username = false ∨ truthyStr b.email = false ∨
        truthyNum b.age = false) := by
  have hcond : ¬(truthyStr (some u) = false ∨ truthyStr (some e) = false ∨
      truthyNum (some a) = false) := by
    simp [truthyStr, truthyNum, hu, he, ha0]
  refine ⟨?_, ?_, ?_⟩
  · simp only [createUser]
    rw [if_neg hcond]
    simp [hage]
  · simp only [createUser]
    rw [if_neg hcond]
    simp [hage]
  · intro b hmsg
    by_contra hcon
    push_neg at hcon
    obtain ⟨h1, h2, h3⟩ := hcon
    rw [Ne, Bool.not_eq_false] at h1 h2 h3
    obtain ⟨bu, be, ba⟩ := b
    cases bu with
    | none => simp [truthyStr] at h1
    | some u' =>
      cases be with
      | none => simp [truthyStr] at h2
      | some e' =>
        cases ba with
        | none => simp [truthyNum] at h3
        | some a' =>
          have hu' : u' ≠ "" := by simpa [truthyStr] using h1
          have he' : e' ≠ "" := by simpa [truthyStr] using h2
          have ha0' : a' ≠ 0 := by simpa [truthyNum] using h3
          have hcond' : ¬(truthyStr (some u') = false ∨
              truthyStr (some e') = false ∨ truthyNum (some a') = false) := by
            simp [truthyStr, truthyNum, hu', he', ha0']
          by_cases hage' : a' < 1 ∨ a' > 150
          · have hc : (createUser s ⟨some u', some e', some a'⟩
                now).1.message = some "Age must be between 1 and 150" := by
              simp only [createUser]
              rw [if_neg hcond']
              simp [hage']
            rw [hc] at hmsg
            simp at hmsg
          · push_neg at hage'
            by_cases hany : s.rows.any
                (fun r => r.username == u' || r.email == e') = true
            · have hc : (createUser s ⟨some u', some e', some a'⟩
                  now).1.message =
                  some "Username or email already exists" := by
                simp only [createUser]
                rw [if_neg hcond']
                simp [hany, hage'.1, hage'.2, not_lt.mpr hage'.1,
                  not_lt.mpr hage'.2]
              rw [hc] at hmsg
              simp at hmsg
            · have hfresh : ∀ r ∈ s.rows, r.username ≠ u' ∧ r.email ≠ e' := by
                rw [Bool.not_eq_true, List.any_eq_false] at hany
                intro r hr
                simpa using hany r hr
              rw [createUser_success s u' e' a' now hu' he' hage'.1 hage'.2
                hfresh] at hmsg
              simp at hmsg

/-- C5 witness at a concrete input: a present, nonzero, out-of-range age
gets the age message. -/
theorem c5_witness :
    (createUser initStore
        ⟨some "alice", some "alice@example.com", some 151⟩ 0).1.message =
      some "Age must be between 1 and 150" :=
  (c5_failure_classification initStore "alice" "alice@example.com" 151 0
    (by decide) (by decide) (by norm_num) (Or.inr (by norm_num))).1

/-- C6: the list operation always answers 200 with `success = true` and
a list that holds every live user exactly once (a permutation of the
table), ordered by `created_at` descending; with no users it is the
empty list. -/
theorem c6_list_ordering (s : Store) :
    (getAllUsers s).status = 200 ∧ (getAllUsers s).success = true ∧
    ∃ l, (getAllUsers s).users = some l ∧ l.Perm s.rows ∧
      l.Sorted newestFirst :=
  ⟨rfl, rfl, s.rows.insertionSort newestFirst, rfl,
    List.perm_insertionSort newestFirst s.rows,
    List.sorted_insertionSort newestFirst s.rows⟩

/-- C7: deleting any id answers 200 with `success = true` whether or not
the id is live, and deleting it again answers 200 and leaves the store
exactly as after the first delete. -/
theorem c7_delete_idempotent (s : Store) (i : Nat) :
    (deleteUser s i).1.status = 200 ∧ (deleteUser s i).1.success = true ∧
    (deleteUser (deleteUser s i).2 i).1.status = 200 ∧
    (deleteUser (deleteUser s i).2 i).1.success = true ∧
    (deleteUser (deleteUser s i).2 i).2 = (deleteUser s i).2 := by
  refine ⟨rfl, rfl, rfl, rfl, ?_⟩
  simp [deleteUser, List.filter_filter]

/-- C8: over any sequence of create and delete calls in one store
lifetime, the ids handed out by successful creates form a strictly
increasing list (each new id exceeds every id assigned before, so a
deleted id is never reassigned), and every live row's id is one that was
assigned at that row's creation (ids never change once set). -/
theorem c8_id_assignment (ops : List Op) :
    List.Chain' (· < ·) (assignedIds initStore ops) ∧
    ∀ u ∈ (run initStore ops).rows, u.id ∈ assignedIds initStore ops := by
  have hInv : StoreInv initStore := by simp [StoreInv, initStore]
  obtain ⟨-, hc, hm⟩ := assignedIds_spec initStore ops hInv
  refine ⟨hc, ?_⟩
  intro u hu
  rcases hm u hu with h | h
  · exact h
  · simp [initStore] at h

/-- C8 witness: a concrete create–delete–create sequence; the ids 1 and
2 are assigned in strictly increasing order, id 1 is not reused. -/
theorem c8_witness :
    List.Chain' (· < ·) (assignedIds initStore
      [Op.create ⟨some "alice", some "alice@example.com", some 25⟩ 3,
       Op.delete 1,
       Op.create ⟨some "bob", some "bob@example.com", some 30⟩ 5]) :=
  (c8_id_assignment
    [Op.create ⟨some "alice", some "alice@example.com", some 25⟩ 3,
     Op.delete 1,
     Op.create ⟨some "bob", some "bob@example.com", some 30⟩ 5]).1

/-- C9 counterexample: on a successful create response the submit
handler fills exactly the four nodes `#userId`, `#displayUsername`,
`#displayEmail`, `#displayAge`; the response's `created_at` (here 777)
appears in none of the displayed values — the timestamp is never
rendered, contradicting the claim that all store-assigned fields
including the timestamp are shown. -/
theorem c9_counterexample :
    handleResponse
        { status := 201, success := true,
          message := some "User registered successfully",
          user := some { id := 1, username := "alice",
                         email := "alice@example.com", age := 25,
                         created_at := 777 },
          users := none } =
      UIState.userInfo
        { userId := "1", displayUsername := "alice",
          displayEmail := "alice@example.com", displayAge := "25" } ∧
    toString (777 : Nat) ∉ renderedValues
        { userId := "1", displayUsername := "alice",
          displayEmail := "alice@example.com", displayAge := "25" } := by
  refine ⟨by decide, by decide⟩

/-- C9 (amended): on a successful response the controller renders the
four fields id, username, email and age, each taken verbatim from the
response's user object (never recomputed) — the timestamp is not
displayed; on a failure response it surfaces the response's message
verbatim. -/
theorem c9_render_from_response (resp : Resp) :
    (∀ u, resp.success = true → resp.user = some u →
      handleResponse resp =
        UIState.userInfo
          { userId := toString u.id, displayUsername := u.username,
            displayEmail := u.email, displayAge := toString u.age }) ∧
    (∀ m, resp.success = false → resp.message = some m →
      handleResponse resp = UIState.errorMsg m) := by
  constructor
  · intro u hs hu
    simp [handleResponse, hs, hu]
  · intro m hs hm
    simp [handleResponse, hs, hm]

/-- C9 witness at a concrete response. -/
theorem c9_witness :
    handleResponse
        { status := 409, success := false,
          message := some "Username or email already exists",
          user := none, users := none } =
      UIState.errorMsg "Username or email already exists" :=
  (c9_render_from_response
    { status := 409, success := false,
      message := some "Username or email already exists",
      user := none, users := none }).2
    "Username or email already exists" rfl rfl

/-- C10: the create handler never requires the age to be an integer —
for any rational `a` with `1 ≤ a ≤ 150` (given fresh, non-empty
username and email) the create succeeds with a 201, the returned user
carries exactly the submitted age `a`, and the row persisted in the
store carries `a` as well. -/
theorem c10_no_integer_check (s : Store) (u e : String) (a : Rat)
    (now : Nat) (hu : u ≠ "") (he : e ≠ "") (ha1 : 1 ≤ a) (ha2 : a ≤ 150)
    (hfresh : ∀ r ∈ s.rows, r.username ≠ u ∧ r.email ≠ e) :
    (createUser s ⟨some u, some e, some a⟩ now).1.status = 201 ∧
    (createUser s ⟨some u, some e, some a⟩ now).1.user.map User.age =
      some a ∧
    mkRow s u e a now ∈ (createUser s ⟨some u, some e, some a⟩ now).2.rows ∧
    (mkRow s u e a now).age = a := by
  rw [createUser_success s u e a now hu he ha1 ha2 hfresh]
  refine ⟨rfl, rfl, ?_, rfl⟩
  simp [mkRow]

/-- C10 witness at the non-integer age 25.5. -/
theorem c10_witness :
    (createUser initStore
        ⟨some "alice", some "alice@example.com", some ((51 : Rat)/2)⟩
        4).1.user.map User.age = some ((51 : Rat)/2) :=
  (c10_no_integer_check initStore "alice" "alice@example.com"
    ((51 : Rat)/2) 4 (by decide) (by decide) (by norm_num) (by norm_num)
    (by simp [initStore])).2.1
